import Mathlib

/-!
Shallow embedding of the client-side fetch-and-render orchestration layer of
`src/frontend/assets/js/script.js` (radiateTPS).  Each exported JS function is
modelled as a pure Lean function from its environment (the outcome of its
`fetch` call, the relevant DOM inputs) to the final DOM state it leaves behind,
together with the observable events it emits (requests issued, JSON parses
attempted, alerts, console output) and the error, if any, that escapes to the
caller (the rejected promise).
-/

/-! ## JavaScript string helpers: `trim` and `replace(/\s+/g, " ")` -/

/-- Character class matched by JS `\s` and removed by `String.prototype.trim`
(ASCII part; the concrete inputs of this development use only these). -/
def isJsWs (c : Char) : Bool :=
  c == ' ' || c == '\t' || c == '\n' || c == '\r' || c == '\x0b' || c == '\x0c'

/-- JS `String.prototype.trim`: drop whitespace from both ends
(`script.js` lines 250-253, 288-289). -/
def jsTrim (s : String) : String :=
  ⟨List.rdropWhile isJsWs (List.dropWhile isJsWs s.data)⟩

/-- One pass of JS `str.replace(/\s+/g, " ")`: each maximal run of whitespace
characters is replaced by a single space.  The boolean argument records whether
the previous character belonged to a whitespace run already emitted. -/
def collapseWsGo : Bool → List Char → List Char
  | _, [] => []
  | prevWs, c :: rest =>
    if isJsWs c then
      if prevWs then collapseWsGo true rest
      else ' ' :: collapseWsGo true rest
    else c :: collapseWsGo false rest

/-- JS `str.replace(/\s+/g, " ")` on a `String`. -/
def collapseWsStr (s : String) : String :=
  ⟨collapseWsGo false s.data⟩

/-- The full-name construction of `createPatient` (`script.js` line 267):
`` `${first} ${middle} ${last}`.replace(/\s+/g, ' ').trim() ``. -/
def shapePatientName (first middle last : String) : String :=
  jsTrim (collapseWsStr (first ++ " " ++ middle ++ " " ++ last))

/-- Does `pat` occur at the start of `s`? (helper for JS `String.includes`). -/
def startsWithChars : List Char → List Char → Bool
  | [], _ => true
  | _ :: _, [] => false
  | a :: as, b :: bs => a == b && startsWithChars as bs

/-- Does `pat` occur anywhere in `s`? (helper for JS `String.includes`). -/
def hasSubList (pat : List Char) : List Char → Bool
  | [] => pat.isEmpty
  | s@(_ :: rest) => startsWithChars pat s || hasSubList pat rest

/-- JS `s.includes(pat)` (`script.js` line 280). -/
def strContains (s pat : String) : Bool :=
  hasSubList pat.data s.data

/-! ## JSON values and JavaScript field access / truthiness -/

/-- JSON values, as produced by a successful `JSON.parse` /
`response.json()`. -/
inductive Json where
  | null
  | bool (b : Bool)
  | num (n : Int)
  | str (s : String)
  | arr (elems : List Json)
  | obj (fields : List (String × Json))

/-- First binding of `key` in an object's field list (JS object property
lookup, ignoring duplicate keys after the first). -/
def lookupField : List (String × Json) → String → Option Json
  | [], _ => none
  | (k, v) :: rest, key => if k == key then some v else lookupField rest key

/-- JS property access `j.key` on a value that is not `null`/`undefined`:
yields the field (or `undefined`, modelled as `none`) and never throws. -/
def jsField (j : Json) (key : String) : Option Json :=
  match j with
  | .obj fs => lookupField fs key
  | _ => none

/-- JS truthiness of a possibly-`undefined` value (`none` = `undefined`). -/
def truthy : Option Json → Bool
  | none => false
  | some .null => false
  | some (.bool b) => b
  | some (.num n) => n != 0
  | some (.str s) => s != ""
  | some (.arr _) => true
  | some (.obj _) => true

mutual
/-- JS string coercion `String(v)` of a parsed JSON value, as used by
`textContent` assignment and template literals. -/
def jsToStringJ : Json → String
  | .null => "null"
  | .bool b => cond b "true" "false"
  | .num n => toString n
  | .str s => s
  | .arr xs => jsToStringList xs
  | .obj _ => "[object Object]"

/-- JS `Array.prototype.toString`: elements joined by commas. -/
def jsToStringList : List Json → String
  | [] => ""
  | [x] => jsToStringJ x
  | x :: y :: rest => jsToStringJ x ++ "," ++ jsToStringList (y :: rest)
end

/-- JS string coercion including `undefined` (template literals render the
absent field as the text `undefined`, e.g. `` `Error: ${data.error}` ``). -/
def jsToString : Option Json → String
  | none => "undefined"
  | some j => jsToStringJ j

/-! ## HTTP responses, fetch outcomes, events -/

/-- A completed HTTP response as observed by the client: status, the
`content-type` header (if any), the body text, and the result of parsing the
body as JSON (`none` when the body is not syntactically valid JSON), which is
what `response.json()` / `JSON.parse(text)` yields. -/
structure HttpResponse where
  status : Nat
  contentType : Option String
  bodyText : String
  parsedJson : Option Json

/-- The outcome of one `fetch` call: the request never completed (the promise
rejects with a network error message), or a response arrived. -/
inductive FetchOutcome where
  | netError (msg : String)
  | resp (r : HttpResponse)

/-- `response.ok` of the fetch API: status in the 2xx success range. -/
def responseOk (status : Nat) : Bool :=
  200 ≤ status && status ≤ 299

/-- The JavaScript errors that arise in this layer. -/
inductive JsError where
  | serverError (status : Nat)
  | network (msg : String)
  | parseError
  | typeError (field : String)
  | notFunction (what : String)
deriving DecidableEq

/-- Message text used when an error value is interpolated into console
output (engine-specific wording abbreviated). -/
def JsError.message : JsError → String
  | .serverError status => "Server error: " ++ toString status
  | .network m => m
  | .parseError => "SyntaxError: JSON parse failed"
  | .typeError f => "TypeError: cannot read " ++ f ++ " of undefined"
  | .notFunction w => "TypeError: " ++ w ++ " is not a function"

/-- Externally observable events emitted while an operation runs, in order. -/
inductive JsEvent where
  | request (url : String)
  | jsonParse
  | alert (msg : String)
  | consoleError (msg : String)
  | consoleLog (msg : String)
  | invoke (fnName : String)
deriving DecidableEq

/-- Result of running one operation: the final state of the DOM region(s) it
owns, the events it emitted, and the error with which its promise rejects
(`none` when the operation terminates its own pipeline). -/
structure OpRun (σ : Type) where
  state : σ
  events : List JsEvent
  thrown : Option JsError

/-! ## View state -/

/-- One entry of a rendered list region: either an `li` created via
`createElement`/`textContent`, or raw markup assigned through `innerHTML`
(the code uses the latter exactly for its inline error items). -/
inductive Item where
  | text (s : String)
  | html (s : String)
deriving DecidableEq

/-- One `option` of the dataset dropdown. -/
structure DropOption where
  value : String
  txt : String
  placeholder : Bool

/-- One `Plotly.newPlot` call, recorded as the data arrays handed to its
traces in order (styling constants omitted; the charting library is an
external collaborator). -/
structure PlotCall where
  traces : List (Option Json)

/-- The three fixed chart panels of the dose view; `none` = never rendered. -/
structure PlotPanels where
  plotlyCtDose : Option PlotCall
  plotlyDvh : Option PlotCall
  plotlyCtOverlay : Option PlotCall

/-- The six input fields of the create-patient form. -/
structure PatientForm where
  id : String
  first : String
  middle : String
  last : String
  birthDate : String
  sex : String

/-- The form after `createPatient` resets every field (lines 308-313). -/
def emptyForm : PatientForm :=
  ⟨"", "", "", "", "", ""⟩

/-- The text of one rendered patient entry (line 332):
`` `${p.name} (ID: ${p.id}, DOB: ${p.birthDate}, Sex: ${p.sex})` ``. -/
def patientLine (p : Json) : String :=
  jsToString (jsField p "name") ++ " (ID: " ++ jsToString (jsField p "id") ++
    ", DOB: " ++ jsToString (jsField p "birthDate") ++ ", Sex: " ++
    jsToString (jsField p "sex") ++ ")"

/-- `patients.forEach(...)` of `loadPatients` (lines 330-334): formats each
element in order; a `null` element makes the property access throw, keeping
the items appended so far. -/
def renderPatientItems : List Json → List String × Option JsError
  | [] => ([], none)
  | p :: rest =>
    match p with
    | .null => ([], some (.typeError "name"))
    | _ =>
      match renderPatientItems rest with
      | (items, e) => (patientLine p :: items, e)

/-! ## The Action Coordinator operations -/

/-- `fetchDoseData` (`script.js` lines 2-131).  Logs, fetches the dose
endpoint, checks `response.ok` (throwing `Server error: status` otherwise),
parses the body, reads `ct_slice`/`mask_slice`/`dose_slice`/`dvh` without
presence checks, and renders the three fixed panels in order.  Every failure
is caught by the surrounding `try`/`catch` and logged, so the promise never
rejects.  Accessing `dvh.dose_values` throws when `dvh` is absent or null;
by then the first panel has already been re-rendered. -/
def fetchDoseData (env : FetchOutcome) (s : PlotPanels) : OpRun PlotPanels :=
  let ev0 : List JsEvent :=
    [.consoleLog "Running fetchDoseData", .request "/plotly/compute_dose"]
  let caught : JsError → JsEvent := fun e =>
    .consoleError ("Error fetching dose data: " ++ e.message)
  match env with
  | .netError m => ⟨s, ev0 ++ [caught (.network m)], none⟩
  | .resp r =>
    if responseOk r.status then
      match r.parsedJson with
      | none => ⟨s, ev0 ++ [.jsonParse, caught .parseError], none⟩
      | some data =>
        let evs := ev0 ++ [.jsonParse, .consoleLog "Received dose data"]
        match data with
        | .null => ⟨s, evs ++ [caught (.typeError "ct_slice")], none⟩
        | _ =>
          let ct := jsField data "ct_slice"
          let mask := jsField data "mask_slice"
          let dose := jsField data "dose_slice"
          let dvh := jsField data "dvh"
          let s1 := { s with plotlyCtDose := some ⟨[ct, mask, dose]⟩ }
          match dvh with
          | none => ⟨s1, evs ++ [caught (.typeError "dose_values")], none⟩
          | some .null => ⟨s1, evs ++ [caught (.typeError "dose_values")], none⟩
          | some dvhVal =>
            let xs := jsField dvhVal "dose_values"
            let ys := jsField dvhVal "volume_percentages"
            let s2 := { s1 with plotlyDvh := some ⟨[xs, ys]⟩ }
            let s3 := { s2 with plotlyCtOverlay := some ⟨[ct, dose, mask]⟩ }
            ⟨s3, evs ++ [.consoleLog "Finished plotting dose data"], none⟩
    else
      ⟨s, ev0 ++ [caught (.serverError r.status)], none⟩

/-- `uploadDicomFolder` (lines 133-157).  No `try`/`catch` and no status
check: the fetch result is parsed as JSON unconditionally, and any transport
or parse failure rejects the returned promise, leaving the `roi-list` region
(`ul0`) untouched.  After a successful parse the region is cleared, then
either one `li` per `roi_names` entry is appended or a single inline error
item is written. -/
def uploadDicomFolder (env : FetchOutcome) (ul0 : List Item) : OpRun (List Item) :=
  let ev0 : List JsEvent := [.request "/roi/upload_dicom"]
  match env with
  | .netError m => ⟨ul0, ev0, some (.network m)⟩
  | .resp r =>
    match r.parsedJson with
    | none => ⟨ul0, ev0 ++ [.jsonParse], some .parseError⟩
    | some data =>
      let evs := ev0 ++ [.jsonParse]
      match data with
      | .null => ⟨[], evs, some (.typeError "roi_names")⟩
      | _ =>
        let roiNames := jsField data "roi_names"
        if truthy roiNames then
          match roiNames with
          | some (.arr elems) =>
            ⟨elems.map (fun j => Item.text (jsToStringJ j)), evs, none⟩
          | _ => ⟨[], evs, some (.notFunction "forEach")⟩
        else
          ⟨[Item.html ("Error: " ++ jsToString (jsField data "error"))], evs, none⟩

/-- `loadDatasets` (lines 159-183).  Writes a loading message, fetches the
dataset listing inside a `try`/`catch` whose handler logs and writes an inline
"Fetch error" item, so the promise never rejects. -/
def loadDatasets (env : FetchOutcome) : OpRun (List Item) :=
  let ev0 : List JsEvent := [.request "/load_data/datasets"]
  let fetchError : List Item := [Item.html "Fetch error"]
  let caught : JsError → JsEvent := fun e =>
    .consoleError ("Failed to load datasets: " ++ e.message)
  match env with
  | .netError m => ⟨fetchError, ev0 ++ [caught (.network m)], none⟩
  | .resp r =>
    match r.parsedJson with
    | none => ⟨fetchError, ev0 ++ [.jsonParse, caught .parseError], none⟩
    | some data =>
      let evs := ev0 ++ [.jsonParse]
      match data with
      | .null => ⟨fetchError, evs ++ [caught (.typeError "datasets")], none⟩
      | _ =>
        let ds := jsField data "datasets"
        if truthy ds then
          match ds with
          | some (.arr elems) =>
            ⟨elems.map (fun j => Item.text (jsToStringJ j)), evs, none⟩
          | _ => ⟨fetchError, evs ++ [caught (.notFunction "forEach")], none⟩
        else
          ⟨[Item.html ("Error: " ++ jsToString (jsField data "error"))], evs, none⟩

/-- The disabled/hidden placeholder option of the dataset dropdown
(lines 193-199). -/
def placeholderOption : DropOption :=
  ⟨"", "-- Select a dataset --", true⟩

/-- `listDatasets` (lines 185-211).  No `try`/`catch`: transport and parse
failures reject the promise with the dropdown (`dd0`) untouched.  On a parsed
response the dropdown is cleared, the placeholder inserted, and one option
appended per dataset name; a missing `datasets` field is only logged. -/
def listDatasets (env : FetchOutcome) (dd0 : List DropOption) :
    OpRun (List DropOption) :=
  let ev0 : List JsEvent := [.request "/load_data/datasets"]
  match env with
  | .netError m => ⟨dd0, ev0, some (.network m)⟩
  | .resp r =>
    match r.parsedJson with
    | none => ⟨dd0, ev0 ++ [.jsonParse], some .parseError⟩
    | some data =>
      let evs := ev0 ++ [.jsonParse]
      let base : List DropOption := [placeholderOption]
      match data with
      | .null => ⟨base, evs, some (.typeError "datasets")⟩
      | _ =>
        let ds := jsField data "datasets"
        if truthy ds then
          match ds with
          | some (.arr elems) =>
            ⟨base ++ elems.map (fun j => ⟨jsToStringJ j, jsToStringJ j, false⟩),
             evs, none⟩
          | _ => ⟨base, evs, some (.notFunction "forEach")⟩
        else
          ⟨base,
           evs ++ [.consoleError ("Error loading datasets: " ++
             jsToString (jsField data "error"))], none⟩

/-- `loadSelectedDataset` (lines 214-238).  With an empty dropdown value it
alerts and returns before any fetch.  Otherwise: no `try`/`catch` and no
status check; transport and parse failures reject the promise with the
`roi-list` region untouched; a parsed response is rendered exactly as in
`uploadDicomFolder`. -/
def loadSelectedDataset (dataset : String) (env : FetchOutcome)
    (ul0 : List Item) : OpRun (List Item) :=
  if dataset == "" then
    ⟨ul0, [.alert "Please select a dataset."], none⟩
  else
    let ev0 : List JsEvent := [.request ("/load_data/" ++ dataset)]
    match env with
    | .netError m => ⟨ul0, ev0, some (.network m)⟩
    | .resp r =>
      match r.parsedJson with
      | none => ⟨ul0, ev0 ++ [.jsonParse], some .parseError⟩
      | some data =>
        let evs := ev0 ++ [.jsonParse]
        match data with
        | .null => ⟨[], evs, some (.typeError "roi_names")⟩
        | _ =>
          let roiNames := jsField data "roi_names"
          if truthy roiNames then
            match roiNames with
            | some (.arr elems) =>
              ⟨elems.map (fun j => Item.text (jsToStringJ j)), evs, none⟩
            | _ => ⟨[], evs, some (.notFunction "forEach")⟩
          else
            ⟨[Item.html ("Error: " ++ jsToString (jsField data "error"))],
             evs, none⟩

/-- `createPatient` (lines 249-322).  Trims the form fields; a blank id or
blank first/last name alerts and returns before any fetch.  The request and
everything after it sit inside a `try`/`catch`, so the promise never rejects.
The response is validated in order: content-type must contain
`application/json`, the body must be non-blank, the body must parse; only
then is `response.ok` consulted — success alerts, triggers `loadPatients`
and resets the form; failure alerts with `data.error || data.message ||`
a default, leaving the form unchanged. -/
def createPatient (form : PatientForm) (env : FetchOutcome) :
    OpRun PatientForm :=
  let idv := jsTrim form.id
  let firstv := jsTrim form.first
  let lastv := jsTrim form.last
  if idv == "" then
    ⟨form, [.alert "Error: Patient ID is required."], none⟩
  else if firstv == "" || lastv == "" then
    ⟨form, [.alert "Error: First name and last name are required."], none⟩
  else
    let ev0 : List JsEvent := [.request "/patients/create"]
    match env with
    | .netError m =>
      ⟨form, ev0 ++ [.consoleError ("Error creating patient: " ++ m),
        .alert ("Error: Failed to create patient. " ++ m)], none⟩
    | .resp r =>
      let ctOk := match r.contentType with
        | none => false
        | some ct => strContains ct "application/json"
      if !ctOk then
        ⟨form, ev0 ++ [.consoleError ("Non-JSON response: " ++ r.bodyText),
          .alert ("Error: Server returned non-JSON response. Status: " ++
            toString r.status)], none⟩
      else if jsTrim r.bodyText == "" then
        ⟨form, ev0 ++ [.consoleError "Empty response from server",
          .alert ("Error: Empty response from server. Status: " ++
            toString r.status)], none⟩
      else
        match r.parsedJson with
        | none =>
          ⟨form, ev0 ++ [.jsonParse,
            .consoleError ("JSON parse error. Response text: " ++ r.bodyText),
            .alert ("Error: Invalid JSON response from server. Status: " ++
              toString r.status)], none⟩
        | some data =>
          if responseOk r.status then
            ⟨emptyForm, ev0 ++ [.jsonParse,
              .alert "Patient created successfully!",
              .invoke "loadPatients"], none⟩
          else
            match data with
            | .null =>
              ⟨form, ev0 ++ [.jsonParse,
                .consoleError ("Error creating patient: " ++
                  (JsError.typeError "error").message),
                .alert ("Error: Failed to create patient. " ++
                  (JsError.typeError "error").message)], none⟩
            | _ =>
              let errorMsg :=
                if truthy (jsField data "error") then
                  jsToString (jsField data "error")
                else if truthy (jsField data "message") then
                  jsToString (jsField data "message")
                else "Error creating patient. Status: " ++ toString r.status
              ⟨form, ev0 ++ [.jsonParse, .alert ("Error: " ++ errorMsg)], none⟩

/-- `loadPatients` (lines 325-335).  No `try`/`catch` and no status check:
transport and parse failures reject the promise, leaving the `patient-list`
region (`list0`) untouched.  A parsed response clears the region and appends
one formatted line per element of the array in order (a non-array payload
throws after the clear). -/
def loadPatients (env : FetchOutcome) (list0 : List Item) : OpRun (List Item) :=
  let ev0 : List JsEvent := [.request "/patients/load"]
  match env with
  | .netError m => ⟨list0, ev0, some (.network m)⟩
  | .resp r =>
    match r.parsedJson with
    | none => ⟨list0, ev0 ++ [.jsonParse], some .parseError⟩
    | some data =>
      let evs := ev0 ++ [.jsonParse]
      match data with
      | .arr ps =>
        match renderPatientItems ps with
        | (items, e) => ⟨items.map Item.text, evs, e⟩
      | _ => ⟨[], evs, some (.notFunction "forEach")⟩

/-! ## Helper lemmas about the whitespace functions -/

theorem dropWhile_head_false (p : Char → Bool) :
    ∀ (l : List Char) (c : Char) (t : List Char),
      List.dropWhile p l = c :: t → p c = false := by
  intro l
  induction l with
  | nil => intro c t h; exact List.noConfusion h
  | cons a rest ih =>
    intro c t h
    by_cases ha : p a
    · rw [List.dropWhile_cons, if_pos ha] at h
      exact ih c t h
    · rw [List.dropWhile_cons, if_neg ha] at h
      cases h
      exact Bool.eq_false_iff.mpr ha

theorem dropWhile_rdropWhile_dropWhile (p : Char → Bool) (l : List Char) :
    List.dropWhile p (List.rdropWhile p (List.dropWhile p l)) =
      List.rdropWhile p (List.dropWhile p l) := by
  rcases h : List.rdropWhile p (List.dropWhile p l) with _ | ⟨c, t⟩
  · simp
  · have hpre := List.rdropWhile_prefix p (List.dropWhile p l)
    rw [h] at hpre
    obtain ⟨u, hu⟩ := hpre
    have hm : List.dropWhile p l = c :: (t ++ u) := by
      rw [← hu]; simp
    have hc : p c = false := dropWhile_head_false p l c (t ++ u) hm
    rw [List.dropWhile_cons, if_neg (by simp [hc])]

theorem jsTrim_idem (s : String) : jsTrim (jsTrim s) = jsTrim s := by
  show (⟨List.rdropWhile isJsWs (List.dropWhile isJsWs
      (List.rdropWhile isJsWs (List.dropWhile isJsWs s.data)))⟩ : String) = _
  rw [dropWhile_rdropWhile_dropWhile, List.rdropWhile_idempotent]
  rfl

/-- The adjacency relation whose chain states that no two consecutive
characters are both whitespace. -/
def wsRel (a b : Char) : Prop := ¬(isJsWs a = true ∧ isJsWs b = true)

/-- No two consecutive characters of the string are both whitespace. -/
def NoDoubleWs (s : String) : Prop := s.data.Chain' wsRel

theorem collapseWsGo_head_true :
    ∀ (l : List Char) (c : Char),
      (collapseWsGo true l).head? = some c → isJsWs c = false := by
  intro l
  induction l with
  | nil => intro c h; exact Option.noConfusion h
  | cons a rest ih =>
    intro c h
    by_cases ha : isJsWs a
    · rw [show collapseWsGo true (a :: rest) = collapseWsGo true rest by
        simp [collapseWsGo, ha]] at h
      exact ih c h
    · rw [show collapseWsGo true (a :: rest) = a :: collapseWsGo false rest by
        simp [collapseWsGo, ha]] at h
      cases h
      exact Bool.eq_false_iff.mpr ha

theorem collapseWsGo_chain :
    ∀ (l : List Char) (b : Bool), (collapseWsGo b l).Chain' wsRel := by
  intro l
  induction l with
  | nil => intro b; simp [collapseWsGo]
  | cons a rest ih =>
    intro b
    by_cases ha : isJsWs a
    · cases b
      · rw [show collapseWsGo false (a :: rest) =
            ' ' :: collapseWsGo true rest by simp [collapseWsGo, ha]]
        rw [List.chain'_cons']
        refine ⟨?_, ih true⟩
        intro y hy hcontra
        rw [collapseWsGo_head_true rest y hy] at hcontra
        exact Bool.noConfusion hcontra.2
      · rw [show collapseWsGo true (a :: rest) = collapseWsGo true rest by
          simp [collapseWsGo, ha]]
        exact ih true
    · rw [show collapseWsGo b (a :: rest) = a :: collapseWsGo false rest by
        cases b <;> simp [collapseWsGo, ha]]
      rw [List.chain'_cons']
      refine ⟨?_, ih false⟩
      intro y _ hcontra
      exact ha hcontra.1

theorem chain'_of_dropWhile {R : Char → Char → Prop} (p : Char → Bool)
    {l : List Char} (h : l.Chain' R) : (l.dropWhile p).Chain' R := by
  rw [← List.takeWhile_append_dropWhile (p := p) (l := l)] at h
  exact h.right_of_append

theorem chain'_of_rdropWhile {R : Char → Char → Prop} (p : Char → Bool)
    {l : List Char} (h : l.Chain' R) : (l.rdropWhile p).Chain' R := by
  obtain ⟨t, ht⟩ := List.rdropWhile_prefix p l
  rw [← ht] at h
  exact h.left_of_append

theorem noDoubleWs_shapePatientName (f m l : String) :
    NoDoubleWs (shapePatientName f m l) := by
  show List.Chain' wsRel (List.rdropWhile isJsWs (List.dropWhile isJsWs
    (collapseWsGo false (f ++ " " ++ m ++ " " ++ l).data)))
  exact chain'_of_rdropWhile _ (chain'_of_dropWhile _
    (collapseWsGo_chain _ false))

/-! ## Claim theorems -/

/-- C5: patient-payload shaping is idempotent on whitespace: trimming an
already-trimmed field value changes nothing (first-name inputs `"Jane"`,
`" Jane "`, `"Jane  "` all yield `"Jane"`), the full name built from
first = `"Jane"`, middle = `""`, last = `"Doe"` is exactly `"Jane Doe"`, and
the built name never contains two consecutive whitespace characters, for
every input. -/
theorem C5_patient_shaping_whitespace :
    (∀ s : String, jsTrim (jsTrim s) = jsTrim s) ∧
    jsTrim "Jane" = "Jane" ∧
    jsTrim " Jane " = "Jane" ∧
    jsTrim "Jane  " = "Jane" ∧
    shapePatientName "Jane" "" "Doe" = "Jane Doe" ∧
    (∀ f m l : String, NoDoubleWs (shapePatientName f m l)) :=
  ⟨jsTrim_idem, by decide, by decide, by decide, by decide,
    noDoubleWs_shapePatientName⟩

/-- C6: whenever the id, first-name, or last-name field is blank after
trimming, `createPatient` stops with a client-side validation alert, issues
no network request (in particular none to `/patients/create`), leaves the
form unchanged, and does not throw. -/
theorem C6_createPatient_blank_fields_no_request :
    ∀ (form : PatientForm) (env : FetchOutcome),
      (jsTrim form.id = "" ∨ jsTrim form.first = "" ∨ jsTrim form.last = "") →
      (createPatient form env).state = form ∧
      (createPatient form env).thrown = none ∧
      ((createPatient form env).events =
          [.alert "Error: Patient ID is required."] ∨
        (createPatient form env).events =
          [.alert "Error: First name and last name are required."]) ∧
      (∀ u, JsEvent.request u ∉ (createPatient form env).events) := by
  intro form env h
  by_cases hid : jsTrim form.id = ""
  · have : createPatient form env =
        ⟨form, [.alert "Error: Patient ID is required."], none⟩ := by
      unfold createPatient
      rw [if_pos (by simp [hid])]
    rw [this]
    refine ⟨rfl, rfl, Or.inl rfl, ?_⟩
    intro u hu
    simp at hu
  · have hfl : jsTrim form.first = "" ∨ jsTrim form.last = "" := by
      rcases h with h | h | h
      · exact absurd h hid
      · exact Or.inl h
      · exact Or.inr h
    have : createPatient form env =
        ⟨form, [.alert "Error: First name and last name are required."],
          none⟩ := by
      unfold createPatient
      rw [if_neg (by simp [hid]), if_pos ?_]
      rcases hfl with h' | h' <;> simp [h']
    rw [this]
    refine ⟨rfl, rfl, Or.inr rfl, ?_⟩
    intro u hu
    simp at hu

/-- C6 witness: a concrete form with a blank id is rejected client-side with
the form retained and no request issued. -/
theorem C6_witness :
    (createPatient ⟨"", "Jane", "", "Doe", "", ""⟩
        (.netError "net down")).state = ⟨"", "Jane", "", "Doe", "", ""⟩ :=
  (C6_createPatient_blank_fields_no_request
    ⟨"", "Jane", "", "Doe", "", ""⟩ (.netError "net down")
    (Or.inl (by decide))).1

/-- C7: invoking `loadSelectedDataset` while the dropdown has no selection
(empty value) issues no network request, notifies the user via an alert,
leaves the ROI list unchanged, and does not throw. -/
theorem C7_loadSelectedDataset_no_selection :
    ∀ (env : FetchOutcome) (ul0 : List Item),
      loadSelectedDataset "" env ul0 =
        ⟨ul0, [.alert "Please select a dataset."], none⟩ ∧
      (∀ u, JsEvent.request u ∉ (loadSelectedDataset "" env ul0).events) := by
  intro env ul0
  refine ⟨rfl, ?_⟩
  intro u hu
  simp [loadSelectedDataset] at hu

theorem renderPatientItems_of_nonnull :
    ∀ (ps : List Json), (∀ p ∈ ps, p ≠ Json.null) →
      renderPatientItems ps = (ps.map patientLine, none) := by
  intro ps
  induction ps with
  | nil => intro _; rfl
  | cons p rest ih =>
    intro h
    have hrest := ih (fun q hq => h q (List.mem_cons_of_mem p hq))
    have hp := h p (List.mem_cons_self p rest)
    cases p with
    | null => exact absurd rfl hp
    | bool b => simp [renderPatientItems, hrest]
    | num n => simp [renderPatientItems, hrest]
    | str s => simp [renderPatientItems, hrest]
    | arr xs => simp [renderPatientItems, hrest]
    | obj fs => simp [renderPatientItems, hrest]

/-- C8: for every patient listing payload (an array of non-null records),
`loadPatients` replaces the patient list region with exactly one entry per
record, in server order, formatted `name (ID: id, DOB: birthDate, Sex: sex)`;
the payload `[{"id":"1","name":"Jane Doe","birthDate":"2000-01-01","sex":"F"}]`
renders exactly one entry reading
`Jane Doe (ID: 1, DOB: 2000-01-01, Sex: F)`. -/
theorem C8_loadPatients_renders_in_order :
    ∀ (r : HttpResponse) (ps : List Json) (list0 : List Item),
      r.parsedJson = some (Json.arr ps) →
      (∀ p ∈ ps, p ≠ Json.null) →
      ((loadPatients (.resp r) list0).state =
          ps.map (fun p => Item.text (patientLine p)) ∧
        (loadPatients (.resp r) list0).thrown = none) ∧
      (loadPatients (.resp ⟨200, some "application/json", "body",
          some (Json.arr [Json.obj [("id", Json.str "1"),
            ("name", Json.str "Jane Doe"),
            ("birthDate", Json.str "2000-01-01"),
            ("sex", Json.str "F")]])⟩) []).state =
        [Item.text "Jane Doe (ID: 1, DOB: 2000-01-01, Sex: F)"] := by
  intro r ps list0 hr hnn
  refine ⟨?_, by decide⟩
  have hrun : loadPatients (.resp r) list0 =
      ⟨(ps.map patientLine).map Item.text,
        [.request "/patients/load", .jsonParse], none⟩ := by
    simp [loadPatients, hr, renderPatientItems_of_nonnull ps hnn]
  rw [hrun]
  simp

/-- C8 witness: the end-to-end Jane Doe payload renders the single formatted
entry. -/
theorem C8_witness :
    (loadPatients (.resp ⟨200, some "application/json", "body",
        some (Json.arr [Json.obj [("id", Json.str "1"),
          ("name", Json.str "Jane Doe"),
          ("birthDate", Json.str "2000-01-01"),
          ("sex", Json.str "F")]])⟩) []).state =
      [Item.text "Jane Doe (ID: 1, DOB: 2000-01-01, Sex: F)"] :=
  (C8_loadPatients_renders_in_order
    ⟨200, some "application/json", "body",
      some (Json.arr [Json.obj [("id", Json.str "1"),
        ("name", Json.str "Jane Doe"),
        ("birthDate", Json.str "2000-01-01"),
        ("sex", Json.str "F")]])⟩
    [Json.obj [("id", Json.str "1"), ("name", Json.str "Jane Doe"),
      ("birthDate", Json.str "2000-01-01"), ("sex", Json.str "F")]]
    [] rfl
    (by intro p hp
        rw [List.mem_singleton] at hp
        subst hp
        intro hcontra
        exact Json.noConfusion hcontra)).2

/-- C9: name-list shaping yields the error-item presentation exactly when the
expected `roi_names` array field is absent from the (object) payload: a valid
empty-object payload renders a single error item, while a payload whose
`roi_names` field is present as an empty array renders an empty list. -/
theorem C9_name_list_error_iff_absent :
    ∀ (fs : List (String × Json)) (r : HttpResponse) (ul0 : List Item),
      r.parsedJson = some (Json.obj fs) →
      (∀ j, lookupField fs "roi_names" = some j → ∃ xs, j = Json.arr xs) →
      ((∃ msg, (uploadDicomFolder (.resp r) ul0).state =
          [Item.html ("Error: " ++ msg)]) ↔
        lookupField fs "roi_names" = none) ∧
      (lookupField fs "roi_names" = some (Json.arr []) →
        (uploadDicomFolder (.resp r) ul0).state = []) ∧
      (uploadDicomFolder (.resp ⟨200, some "application/json", "e",
          some (Json.obj [])⟩) []).state = [Item.html "Error: undefined"] := by
  intro fs r ul0 hr hshape
  rcases hlk : lookupField fs "roi_names" with _ | j
  · have hrun : uploadDicomFolder (.resp r) ul0 =
        ⟨[Item.html ("Error: " ++ jsToString (lookupField fs "error"))],
          [.request "/roi/upload_dicom", .jsonParse], none⟩ := by
      simp [uploadDicomFolder, hr, jsField, hlk, truthy]
    refine ⟨?_, ?_, by decide⟩
    · rw [hrun]
      exact ⟨fun _ => rfl, fun _ => ⟨jsToString (lookupField fs "error"), rfl⟩⟩
    · intro hcontra
      exact Option.noConfusion hcontra
  · obtain ⟨xs, rfl⟩ := hshape j hlk
    have hrun : uploadDicomFolder (.resp r) ul0 =
        ⟨xs.map (fun x => Item.text (jsToStringJ x)),
          [.request "/roi/upload_dicom", .jsonParse], none⟩ := by
      simp [uploadDicomFolder, hr, jsField, hlk, truthy]
    refine ⟨?_, ?_, by decide⟩
    · rw [hrun]
      constructor
      · rintro ⟨msg, hmsg⟩
        rcases xs with _ | ⟨x, xs'⟩ <;> simp at hmsg
      · intro hcontra
        exact Option.noConfusion hcontra
    · intro hempty
      have hxs : xs = [] := by
        simpa using hempty
      subst hxs
      rw [hrun]
      rfl

/-- C9 witness: the empty-object payload yields the single error item, and
`roi_names: []` yields the empty (non-error) list. -/
theorem C9_witness :
    (uploadDicomFolder (.resp ⟨200, some "application/json", "e2",
        some (Json.obj [("roi_names", Json.arr [])])⟩) []).state = [] :=
  ((C9_name_list_error_iff_absent [("roi_names", Json.arr [])]
    ⟨200, some "application/json", "e2",
      some (Json.obj [("roi_names", Json.arr [])])⟩
    [] rfl
    (by intro j hj
        cases hj
        exact ⟨[], rfl⟩)).2).1 rfl

/-- C10: in `uploadDicomFolder` and `loadSelectedDataset` the ROI list region
is cleared only after the body has parsed as JSON successfully: for every
execution in which the request or the JSON parsing fails, the previously
rendered list content is left unchanged. -/
theorem C10_roi_list_untouched_on_failure :
    ∀ (ul0 : List Item) (ds : String), ds ≠ "" →
      (∀ m, (uploadDicomFolder (.netError m) ul0).state = ul0 ∧
        (loadSelectedDataset ds (.netError m) ul0).state = ul0) ∧
      (∀ r : HttpResponse, r.parsedJson = none →
        (uploadDicomFolder (.resp r) ul0).state = ul0 ∧
        (loadSelectedDataset ds (.resp r) ul0).state = ul0) := by
  intro ul0 ds hds
  have hds' : (ds == "") = false := by
    simp [hds]
  constructor
  · intro m
    exact ⟨rfl, by simp [loadSelectedDataset, hds']⟩
  · intro r hr
    exact ⟨by simp [uploadDicomFolder, hr], by simp [loadSelectedDataset, hds', hr]⟩

/-- C10 witness: with a selected dataset and a network failure, both
operations leave a previously rendered ROI list unchanged. -/
theorem C10_witness :
    (uploadDicomFolder (.netError "net down") [Item.text "Lung"]).state =
      [Item.text "Lung"] :=
  ((C10_roi_list_untouched_on_failure [Item.text "Lung"] "P001"
    (by decide)).1 "net down").1

theorem uploadDicomFolder_resp_events (r : HttpResponse) (ul0 : List Item) :
    (uploadDicomFolder (.resp r) ul0).events =
      [.request "/roi/upload_dicom", .jsonParse] := by
  rcases hp : r.parsedJson with _ | data
  · simp [uploadDicomFolder, hp]
  · cases data with
    | obj fs =>
      simp only [uploadDicomFolder, hp]
      split
      · split <;> rfl
      · rfl
    | null => simp [uploadDicomFolder, hp]
    | bool b => simp [uploadDicomFolder, hp, jsField, truthy]
    | num n => simp [uploadDicomFolder, hp, jsField, truthy]
    | str s => simp [uploadDicomFolder, hp, jsField, truthy]
    | arr xs => simp [uploadDicomFolder, hp, jsField, truthy]

/-- C1 counterexample: a 500 response to `uploadDicomFolder` is parsed as
JSON — there is no ServerError short-circuit for non-2xx statuses outside
`fetchDoseData`. -/
theorem C1_counterexample :
    responseOk 500 = false ∧
    (uploadDicomFolder (.resp ⟨500, some "application/json", "body",
        some (Json.obj [("error", Json.str "boom")])⟩) []).events =
      [.request "/roi/upload_dicom", .jsonParse] :=
  ⟨by decide, by decide⟩

/-- C1 (amended): only `fetchDoseData` checks the status: on non-2xx it
leaves its panels unchanged, logs the thrown `Server error: status`, and
never attempts JSON parsing; `uploadDicomFolder` attempts to parse the
response body as JSON for every completed response, regardless of status. -/
theorem C1_amended_status_check :
    (∀ (r : HttpResponse) (s : PlotPanels), responseOk r.status = false →
      (fetchDoseData (.resp r) s).state = s ∧
      (fetchDoseData (.resp r) s).events =
        [.consoleLog "Running fetchDoseData", .request "/plotly/compute_dose",
         .consoleError ("Error fetching dose data: " ++
           (JsError.serverError r.status).message)] ∧
      JsEvent.jsonParse ∉ (fetchDoseData (.resp r) s).events) ∧
    (∀ (r : HttpResponse) (ul0 : List Item),
      JsEvent.jsonParse ∈ (uploadDicomFolder (.resp r) ul0).events) := by
  constructor
  · intro r s h
    have hrun : fetchDoseData (.resp r) s =
        ⟨s, [.consoleLog "Running fetchDoseData",
          .request "/plotly/compute_dose",
          .consoleError ("Error fetching dose data: " ++
            (JsError.serverError r.status).message)], none⟩ := by
      simp [fetchDoseData, h]
    rw [hrun]
    refine ⟨rfl, rfl, ?_⟩
    simp
  · intro r ul0
    rw [uploadDicomFolder_resp_events r ul0]
    simp

/-- C1 witness: a concrete 404 response leaves the (never-rendered) panels
unchanged in `fetchDoseData`. -/
theorem C1_witness :
    (fetchDoseData (.resp ⟨404, none, "nf", none⟩)
        ⟨none, none, none⟩).state = ⟨none, none, none⟩ :=
  (C1_amended_status_check.1 ⟨404, none, "nf", none⟩ ⟨none, none, none⟩
    (by decide)).1

/-- C2 counterexample: a transport failure inside `uploadDicomFolder` is not
caught — the entry point's promise rejects with the network error. -/
theorem C2_counterexample :
    (uploadDicomFolder (.netError "Failed to fetch") []).thrown =
      some (JsError.network "Failed to fetch") := rfl

/-- C2 (amended): `fetchDoseData`, `loadDatasets` and `createPatient` catch
every transport and validation failure (their promise never rejects), while
`uploadDicomFolder`, `listDatasets`, `loadSelectedDataset` (with a selection)
and `loadPatients` let transport and parse failures propagate to their
caller. -/
theorem C2_amended_catch_policy :
    (∀ (env : FetchOutcome) (s : PlotPanels),
      (fetchDoseData env s).thrown = none) ∧
    (∀ env : FetchOutcome, (loadDatasets env).thrown = none) ∧
    (∀ (form : PatientForm) (env : FetchOutcome),
      (createPatient form env).thrown = none) ∧
    (∀ (m : String) (ul0 : List Item),
      (uploadDicomFolder (.netError m) ul0).thrown =
        some (JsError.network m)) ∧
    (∀ (r : HttpResponse) (ul0 : List Item), r.parsedJson = none →
      (uploadDicomFolder (.resp r) ul0).thrown = some JsError.parseError) ∧
    (∀ (m : String) (dd0 : List DropOption),
      (listDatasets (.netError m) dd0).thrown = some (JsError.network m)) ∧
    (∀ (m ds : String) (ul0 : List Item), ds ≠ "" →
      (loadSelectedDataset ds (.netError m) ul0).thrown =
        some (JsError.network m)) ∧
    (∀ (m : String) (l0 : List Item),
      (loadPatients (.netError m) l0).thrown = some (JsError.network m)) := by
  refine ⟨?_, ?_, ?_, fun m ul0 => rfl, ?_, fun m dd0 => rfl, ?_, fun m l0 => rfl⟩
  · intro env s
    cases env with
    | netError m => rfl
    | resp r =>
      simp only [fetchDoseData]
      split
      · split
        · rfl
        · split
          · rfl
          · split <;> rfl
      · rfl
  · intro env
    cases env with
    | netError m => rfl
    | resp r =>
      simp only [loadDatasets]
      split
      · rfl
      · split
        · rfl
        · split
          · split <;> rfl
          · rfl
  · intro form env
    simp only [createPatient]
    split
    · rfl
    · split
      · rfl
      · cases env with
        | netError m => rfl
        | resp r =>
          repeat' first
            | rfl
            | (cases ‹Json› <;> rfl)
            | split
  · intro r ul0 hr
    simp [uploadDicomFolder, hr]
  · intro m ds ul0 hds
    simp [loadSelectedDataset, show (ds == "") = false by simp [hds]]

/-- C2 witness: a concrete network failure is caught by `fetchDoseData` but
escapes `loadSelectedDataset` invoked with a selection. -/
theorem C2_witness :
    (loadSelectedDataset "P001" (.netError "net down") []).thrown =
      some (JsError.network "net down") :=
  (C2_amended_catch_policy.2.2.2.2.2.2.1 "net down" "P001" [] (by decide))

/-- C3 counterexample: a payload with `ct_slice` absent (but `mask_slice`,
`dose_slice`, `dvh` present) does not fail at all — no MissingField error,
no log entry, no rejection: all three panels are rendered with the missing
grid flowing through as `undefined`. -/
theorem C3_counterexample :
    fetchDoseData (.resp ⟨200, some "application/json", "payload",
        some (Json.obj [("mask_slice", Json.arr []),
          ("dose_slice", Json.arr []),
          ("dvh", Json.obj [("dose_values", Json.arr []),
            ("volume_percentages", Json.arr [])])])⟩)
      ⟨none, none, none⟩ =
    ⟨⟨some ⟨[none, some (Json.arr []), some (Json.arr [])]⟩,
      some ⟨[some (Json.arr []), some (Json.arr [])]⟩,
      some ⟨[none, some (Json.arr []), some (Json.arr [])]⟩⟩,
     [.consoleLog "Running fetchDoseData", .request "/plotly/compute_dose",
      .jsonParse, .consoleLog "Received dose data",
      .consoleLog "Finished plotting dose data"], none⟩ := rfl

/-- C3 (amended): the dose-payload shaping inside `fetchDoseData` reads
`ct_slice`, `mask_slice`, `dose_slice`, `dvh` with no presence checks and
never produces a MissingField error: for any object payload whose `dvh`
field is present and non-null, all three panels render (absent grid fields
simply pass through as `undefined`); when `dvh` is absent, the failure is a
caught TypeError on `dvh.dose_values`, logged after the first panel has
already rendered. -/
theorem C3_amended_no_missing_field_check :
    ∀ (r : HttpResponse) (fs : List (String × Json)) (s : PlotPanels),
      r.parsedJson = some (Json.obj fs) → responseOk r.status = true →
      (lookupField fs "dvh" = none →
        fetchDoseData (.resp r) s =
          ⟨{ s with plotlyCtDose := some ⟨[lookupField fs "ct_slice",
              lookupField fs "mask_slice", lookupField fs "dose_slice"]⟩ },
           [.consoleLog "Running fetchDoseData",
            .request "/plotly/compute_dose", .jsonParse,
            .consoleLog "Received dose data",
            .consoleError ("Error fetching dose data: " ++
              (JsError.typeError "dose_values").message)], none⟩) ∧
      (∀ d, lookupField fs "dvh" = some d → d ≠ Json.null →
        fetchDoseData (.resp r) s =
          ⟨⟨some ⟨[lookupField fs "ct_slice", lookupField fs "mask_slice",
              lookupField fs "dose_slice"]⟩,
            some ⟨[jsField d "dose_values", jsField d "volume_percentages"]⟩,
            some ⟨[lookupField fs "ct_slice", lookupField fs "dose_slice",
              lookupField fs "mask_slice"]⟩⟩,
           [.consoleLog "Running fetchDoseData",
            .request "/plotly/compute_dose", .jsonParse,
            .consoleLog "Received dose data",
            .consoleLog "Finished plotting dose data"], none⟩) := by
  intro r fs s hr hok
  constructor
  · intro hdvh
    simp [fetchDoseData, hr, hok, jsField, hdvh]
  · intro d hdvh hd
    cases d with
    | null => exact absurd rfl hd
    | bool b => simp [fetchDoseData, hr, hok, jsField, hdvh]
    | num n => simp [fetchDoseData, hr, hok, jsField, hdvh]
    | str str => simp [fetchDoseData, hr, hok, jsField, hdvh]
    | arr xs => simp [fetchDoseData, hr, hok, jsField, hdvh]
    | obj dfs => simp [fetchDoseData, hr, hok, jsField, hdvh]

/-- C3 witness: an empty-object payload (all four fields absent) renders the
first panel with three `undefined` grids and then logs the caught TypeError. -/
theorem C3_witness :
    fetchDoseData (.resp ⟨200, some "application/json", "mt",
        some (Json.obj [])⟩) ⟨none, none, none⟩ =
      ⟨⟨some ⟨[none, none, none]⟩, none, none⟩,
       [.consoleLog "Running fetchDoseData",
        .request "/plotly/compute_dose", .jsonParse,
        .consoleLog "Received dose data",
        .consoleError ("Error fetching dose data: " ++
          (JsError.typeError "dose_values").message)], none⟩ :=
  (C3_amended_no_missing_field_check
    ⟨200, some "application/json", "mt", some (Json.obj [])⟩ []
    ⟨none, none, none⟩ rfl (by decide)).1 rfl

/-- C4 counterexample: on a 200 response whose payload is `{}` (so the
execution fails: the caught TypeError on `dvh.dose_values` is logged), the
first chart panel is nevertheless changed from its prior state. -/
theorem C4_counterexample :
    ((fetchDoseData (.resp ⟨200, some "application/json", "mt",
        some (Json.obj [])⟩) ⟨none, none, none⟩).state.plotlyCtDose ≠
      (PlotPanels.mk none none none).plotlyCtDose) ∧
    JsEvent.consoleError ("Error fetching dose data: " ++
        (JsError.typeError "dose_values").message) ∈
      (fetchDoseData (.resp ⟨200, some "application/json", "mt",
        some (Json.obj [])⟩) ⟨none, none, none⟩).events := by
  constructor
  · intro h
    exact Option.noConfusion h
  · decide

/-- C4 (amended): on transport failure, non-success status, or JSON parse
failure, `fetchDoseData` only logs the error and leaves all three chart
panels unchanged; but when the payload merely lacks `dvh`, the failure
occurs after the first panel has already been re-rendered (see the
counterexample). -/
theorem C4_amended_early_failures_leave_panels :
    ∀ s : PlotPanels,
      (∀ m, fetchDoseData (.netError m) s =
        ⟨s, [.consoleLog "Running fetchDoseData",
          .request "/plotly/compute_dose",
          .consoleError ("Error fetching dose data: " ++ m)], none⟩) ∧
      (∀ r : HttpResponse, responseOk r.status = false →
        fetchDoseData (.resp r) s =
          ⟨s, [.consoleLog "Running fetchDoseData",
            .request "/plotly/compute_dose",
            .consoleError ("Error fetching dose data: " ++
              (JsError.serverError r.status).message)], none⟩) ∧
      (∀ r : HttpResponse, responseOk r.status = true →
        r.parsedJson = none →
        fetchDoseData (.resp r) s =
          ⟨s, [.consoleLog "Running fetchDoseData",
            .request "/plotly/compute_dose", .jsonParse,
            .consoleError ("Error fetching dose data: " ++
              JsError.parseError.message)], none⟩) := by
  intro s
  refine ⟨fun m => rfl, ?_, ?_⟩
  · intro r h
    simp [fetchDoseData, h]
  · intro r hok hp
    simp [fetchDoseData, hok, hp]

/-- C4 witness: a concrete network failure leaves previously rendered panels
exactly as they were, with the error only logged. -/
theorem C4_witness :
    fetchDoseData (.netError "net down")
        ⟨some ⟨[none, none, none]⟩, none, none⟩ =
      ⟨⟨some ⟨[none, none, none]⟩, none, none⟩,
       [.consoleLog "Running fetchDoseData",
        .request "/plotly/compute_dose",
        .consoleError ("Error fetching dose data: net down")], none⟩ :=
  (C4_amended_early_failures_leave_panels
    ⟨some ⟨[none, none, none]⟩, none, none⟩).1 "net down"
